import Mathlib

/-
Shallow embedding of the `app` service-lifecycle orchestrator
(package app: service core, options.go, health.go).

Modelling conventions:
  * Go slices become Lean lists; the `SubServices map[string]SubService`
    becomes the list of its keys in some iteration order (all properties
    proved below are order-insensitive, matching Go map semantics).
  * External effects (TCP dials, grpc client creation, DB pings,
    SubService readiness and Close results, http Shutdown results) are
    an explicit `World` of oracles, so the pure control flow of the Go
    code is what the definitions capture.
  * The unbounded retry loop of `checkHTTPServerUp` is modelled with
    explicit fuel: the result `none` means the loop has not returned
    within that many iterations; `some b` means it returned `b`.
  * `Stop` additionally returns the list of teardown actions it
    performed, in program order, so ordering claims can be stated.
  * Go errors are `Option String` (none = nil) except for the signal
    wait, whose sentinel `ErrTermSig` is a distinguished constructor.
-/

set_option linter.unusedVariables false

namespace App

/-- One gRPC server entry of the Service registry: bind address plus the
names of the service implementations registered on it
(`grpcServer.server.RegisterService` is modelled as appending a name). -/
structure GRPCServer where
  address : String
  services : List String
  deriving DecidableEq

/-- The Service root aggregate (struct `Service` of the Go source),
restricted to the fields the lifecycle logic reads or writes:
`HTTPServers` keeps only the bind addresses, `DB` only presence,
`isReady` is the atomic readiness snapshot, `SubServices` the map keys,
and `errChanClosed` records whether `close(s.ErrChan)` has run. -/
structure Service where
  name : String
  grpcServers : List GRPCServer
  httpServers : List String
  hasDB : Bool
  isReady : Bool
  subServices : List String
  errChanClosed : Bool
  deriving DecidableEq

/-- Environment oracles for the external effects the orchestrator
performs: per-address grpc client creation success, per-address
per-attempt TCP dial success, DB ping success, per-name SubService
readiness and Close success, per-address http Shutdown success. -/
structure World where
  grpcClientOk : String → Bool
  httpDialOk : String → Nat → Bool
  dbPingOk : Bool
  subReady : String → Bool
  subCloseOk : String → Bool
  httpShutdownOk : String → Bool

/-- Configuration mutators (the `Option` values built by options.go).
`db` carries the outcome of `pgxpool.ParseConfig` / `NewWithConfig`:
`none` means both succeeded, `some e` the first error. -/
inductive MOption where
  | grpcServer (address : String)
  | techHTTPServer (address : String)
  | db (fail : Option String)
  | redis
  deriving DecidableEq

/-- The empty Service that `New` builds before applying any mutator:
readiness snapshot stored `false`, empty registries, open error chan. -/
def newService (name : String) : Service :=
  { name := name
    grpcServers := []
    httpServers := []
    hasDB := false
    isReady := false
    subServices := []
    errChanClosed := false }

/-- One step of configuration: `Option.Apply` of options.go.
`GRPCServerOption.Apply` appends a fresh server, `TechHTTPServerOption.Apply`
appends an http server, `DBOption.Apply` attaches the pool or fails with
the parse/pool error, `RedisOption.Apply` is a no-op. -/
def applyOption : MOption → Service → Except String Service
  | MOption.grpcServer addr, s =>
      Except.ok { s with grpcServers := s.grpcServers ++ [{ address := addr, services := [] }] }
  | MOption.techHTTPServer addr, s =>
      Except.ok { s with httpServers := s.httpServers ++ [addr] }
  | MOption.db none, s => Except.ok { s with hasDB := true }
  | MOption.db (some e), s => Except.error e
  | MOption.redis, s => Except.ok s

/-- The mutator loop of `New`: apply each option in order, aborting with
the first error. -/
def applyOptions : List MOption → Service → Except String Service
  | [], s => Except.ok s
  | o :: os, s =>
      match applyOption o s with
      | Except.error e => Except.error e
      | Except.ok s' => applyOptions os s'

/-- The constructor `New(ctx, name, options...)` (the context is opaque
to the lifecycle logic and omitted): build the empty Service, then apply
the mutators in order, returning the first error if any fails. -/
def New (name : String) (opts : List MOption) : Except String Service :=
  applyOptions opts (newService name)

/-- Helper for `AddGRPCService`: walk the registered gRPC servers and
register the service on the first one whose address matches, returning
`none` when no address matches (the Go loop falls through). -/
def registerOnFirst : List GRPCServer → String → String → Option (List GRPCServer)
  | [], _, _ => none
  | g :: rest, addr, svc =>
      if g.address = addr then
        some ({ g with services := g.services ++ [svc] } :: rest)
      else
        match registerOnFirst rest addr svc with
        | some rest' => some (g :: rest')
        | none => none

/-- `Service.AddGRPCService(serverName, service, description)`: register
the implementation on the first gRPC server with that address and return
nil, or return the error `"gRPC server not found"` leaving the Service
untouched. The pair is (resulting Service, returned error). -/
def Service.AddGRPCService (s : Service) (serverName svcName : String) :
    Service × Option String :=
  match registerOnFirst s.grpcServers serverName svcName with
  | some gs => ({ s with grpcServers := gs }, none)
  | none => (s, some "gRPC server not found")

/-- The retry loop of `Service.checkHTTPServerUp`: starting from `err`
non-nil, dial until a dial succeeds, then return true. `attempt` indexes
the dial attempts; `fuel` bounds how many loop iterations we unfold:
`none` means the loop is still running after `fuel` iterations. The Go
loop has no bound and no false-returning path. -/
def checkHTTPLoop (dial : Nat → Bool) : Nat → Nat → Option Bool
  | _, 0 => none
  | attempt, fuel + 1 =>
      if dial attempt then some true else checkHTTPLoop dial (attempt + 1) fuel

/-- `Service.checkHTTPServerUp` for one http server address: run the
unbounded dial-retry loop (each dial itself has a 1-second timeout in the
source) from attempt 0. -/
def Service.checkHTTPServerUp (w : World) (addr : String) (fuel : Nat) : Option Bool :=
  checkHTTPLoop (w.httpDialOk addr) 0 fuel

/-- The http probe loop shared by `IsAlive` and `Ready`: probe every
registered http server; `none` if any probe has not returned within the
fuel, otherwise the conjunction of the results. -/
def checkHTTPAll (w : World) (addrs : List String) (fuel : Nat) : Option Bool :=
  match addrs with
  | [] => some true
  | a :: rest =>
      match Service.checkHTTPServerUp w a fuel, checkHTTPAll w rest fuel with
      | some b, some c => some (b && c)
      | _, _ => none

/-- `Service.checkGRPCServerUp`: create a client for every registered
gRPC server address, returning false on the first failure. -/
def Service.checkGRPCServerUp (w : World) (s : Service) : Bool :=
  s.grpcServers.all fun g => w.grpcClientOk g.address

/-- `Service.checkDBAlive`: vacuously true without a DB handle,
otherwise the result of pinging the pool. -/
def Service.checkDBAlive (w : World) (s : Service) : Bool :=
  if s.hasDB then w.dbPingOk else true

/-- `Service.IsAlive`: conjunction of gRPC reachability (vacuous when no
gRPC servers are registered), every http server probe, and DB
reachability (vacuous without a DB). `none` when some http probe loop
has not returned within the fuel. -/
def Service.IsAlive (w : World) (s : Service) (fuel : Nat) : Option Bool :=
  match checkHTTPAll w s.httpServers fuel with
  | none => none
  | some httpAlive =>
      some (Service.checkGRPCServerUp w s && httpAlive && Service.checkDBAlive w s)

/-- `Service.Ready`: one readiness sweep. Computes the conjunction of
every SubService readiness, gRPC reachability, every http probe, and DB
reachability, and swaps it into the `isReady` snapshot. `none` when some
http probe loop has not returned within the fuel (the sweep never
completes, the snapshot keeps its old value). -/
def Service.Ready (w : World) (s : Service) (fuel : Nat) : Option Service :=
  let areSubsReady := s.subServices.all w.subReady
  let isGRPCReady := Service.checkGRPCServerUp w s
  match checkHTTPAll w s.httpServers fuel with
  | none => none
  | some httpReady =>
      some { s with
              isReady := areSubsReady && isGRPCReady && httpReady &&
                         Service.checkDBAlive w s }

/-- The bounded deadline (in seconds) of the shutdown context created at
the top of `Service.Stop` and passed to every http `Shutdown` call. -/
def shutdownTimeoutSeconds : Nat := 30

/-- One teardown action performed by `Service.Stop`, with its outcome
where the source inspects one (a failed action is only logged). -/
inductive StopEvent where
  | subClose (name : String) (ok : Bool)
  | grpcStop (address : String)
  | httpShutdown (address : String) (deadlineSeconds : Nat) (ok : Bool)
  | dbClose
  | errChanClose
  deriving DecidableEq

/-- The sequence of teardown actions `Service.Stop` performs, in program
order: Close every SubService, GracefulStop every gRPC server, Shutdown
every http server under the 30-second context, close the DB pool if
present, close the error channel. Every loop runs to completion
regardless of individual failures, which are only logged. -/
def Service.stopTrace (w : World) (s : Service) : List StopEvent :=
  ((((s.subServices.map fun n => StopEvent.subClose n (w.subCloseOk n))
      ++ (s.grpcServers.map fun g => StopEvent.grpcStop g.address))
      ++ (s.httpServers.map fun a =>
            StopEvent.httpShutdown a shutdownTimeoutSeconds (w.httpShutdownOk a)))
      ++ (if s.hasDB then [StopEvent.dbClose] else []))
      ++ [StopEvent.errChanClose]

/-- `Service.Stop`: the final state (error channel closed) together with
the trace of teardown actions performed. -/
def Service.Stop (w : World) (s : Service) : Service × List StopEvent :=
  ({ s with errChanClosed := true }, Service.stopTrace w s)

/-- Teardown phase of an action: SubService closes (0) precede gRPC
stops (1), which precede http shutdowns (2), which precede the DB close
(3), which precedes closing the error channel (4). -/
def phase : StopEvent → Nat
  | StopEvent.subClose _ _ => 0
  | StopEvent.grpcStop _ => 1
  | StopEvent.httpShutdown _ _ _ => 2
  | StopEvent.dbClose => 3
  | StopEvent.errChanClose => 4

/-- Ordering relation on teardown actions: the first action belongs to
the same or an earlier teardown phase. -/
def PhaseLE (a b : StopEvent) : Prop := phase a ≤ phase b

/-- Errors returned by the signal trap wait: the expected termination
sentinel `ErrTermSig`, or any other failure. -/
inductive GoErr where
  | termSig
  | other (msg : String)
  deriving DecidableEq

/-- What `Start` does after `s.sigHandler.Wait(ctx)` returns:
`returned` is the value `Start` returns to its caller and
`drainStarted` whether the error-drain goroutine was launched. -/
structure StartOutcome where
  returned : Option GoErr
  drainStarted : Bool
  deriving DecidableEq

/-- The tail of `Service.Start`: if the wait error is non-nil and is not
the `ErrTermSig` sentinel, return it at once (the drain sink is never
started); otherwise launch the error-drain goroutine and return nil. -/
def startAfterWait : Option GoErr → StartOutcome
  | none => { returned := none, drainStarted := true }
  | some GoErr.termSig => { returned := none, drainStarted := true }
  | some (GoErr.other m) => { returned := some (GoErr.other m), drainStarted := false }

/-- The HTTP success status used by the liveness route. -/
def statusOK : Nat := 200

/-- The HTTP status used for a failing liveness check. -/
def statusServiceUnavailable : Nat := 503

/-- The JSON error body written by `AnswerWithJSONError`
(struct `errorResponse` of health.go). -/
structure ErrorBody where
  errorCode : Nat
  errorDetails : String
  deriving DecidableEq

/-- An HTTP response as observed by the probe client: status code,
content type header if set, and the decoded JSON body if one was
written. -/
structure HTTPResponse where
  status : Nat
  contentType : Option String
  body : Option ErrorBody
  deriving DecidableEq

/-- `AnswerWithJSONError(w, code)`: write the JSON content type, the
status `code`, and a body holding the numeric code and the fixed detail
string (the marshal of this fixed struct cannot fail). -/
def AnswerWithJSONError (code : Nat) : HTTPResponse :=
  { status := code
    contentType := some "application/json"
    body := some { errorCode := code
                   errorDetails := "error during request processing" } }

/-- The `/health/live` handler built by `alive(areAlive)`: run the
checkers in order; at the first false one answer with the JSON error at
status 503 and return, otherwise answer 200 with no body. The list holds
each registered checker's return value. -/
def alive : List Bool → HTTPResponse
  | [] => { status := statusOK, contentType := none, body := none }
  | c :: rest =>
      if c then alive rest else AnswerWithJSONError statusServiceUnavailable

/-- The bind addresses contributed by the gRPC-server mutators of an
option list, in order. -/
def grpcOptionAddrs : List MOption → List String
  | [] => []
  | MOption.grpcServer a :: rest => a :: grpcOptionAddrs rest
  | _ :: rest => grpcOptionAddrs rest

/-- The registered gRPC bind addresses of a construction result
(empty on construction failure, where no Service is exposed). -/
def registeredGRPCAddrs : Except String Service → List String
  | Except.ok s => s.grpcServers.map GRPCServer.address
  | Except.error _ => []

/-- Example world in which every external effect succeeds. -/
def wEx : World :=
  { grpcClientOk := fun _ => true
    httpDialOk := fun _ _ => true
    dbPingOk := true
    subReady := fun _ => true
    subCloseOk := fun _ => true
    httpShutdownOk := fun _ => true }

/-- Example world in which teardown steps fail, no TCP dial ever
succeeds, and every SubService reports not-ready. -/
def wFailEx : World :=
  { grpcClientOk := fun _ => true
    httpDialOk := fun _ _ => false
    dbPingOk := true
    subReady := fun _ => false
    subCloseOk := fun _ => false
    httpShutdownOk := fun _ => false }

/-- Example Service holding one of each teardown target. -/
def sFullEx : Service :=
  { name := "svc"
    grpcServers := [{ address := ":9090", services := [] }]
    httpServers := [":8080"]
    hasDB := true
    isReady := true
    subServices := ["cache"]
    errChanClosed := false }

/-- Example Service with one SubService and nothing else, snapshot
currently true so a sweep that stores false is observable. -/
def sSubEx : Service :=
  { name := "svc"
    grpcServers := []
    httpServers := []
    hasDB := false
    isReady := true
    subServices := ["cache"]
    errChanClosed := false }

/-- Example Service with a single registered gRPC server. -/
def sGrpcEx : Service :=
  { name := "svc"
    grpcServers := [{ address := ":9090", services := [] }]
    httpServers := []
    hasDB := false
    isReady := false
    subServices := []
    errChanClosed := false }

/-- Example Service produced by applying the gRPC-server mutator twice
for the same address: two entries share the bind address. -/
def sDupEx : Service :=
  { name := "svc"
    grpcServers := [{ address := ":9090", services := [] },
                    { address := ":9090", services := [] }]
    httpServers := []
    hasDB := false
    isReady := false
    subServices := []
    errChanClosed := false }

/-- Teardown phases are bounded by the error-channel close phase. -/
theorem phase_le_four (e : StopEvent) : phase e ≤ 4 := by
  cases e <;> simp [phase]

/-- A mapped block whose events all share one phase is internally
ordered. -/
theorem pairwise_map_const {α : Type} (l : List α) (f : α → StopEvent) (k : Nat)
    (hf : ∀ a, phase (f a) = k) : List.Pairwise PhaseLE (l.map f) := by
  induction l with
  | nil => exact List.Pairwise.nil
  | cons x xs ih =>
      simp only [List.map_cons]
      refine List.Pairwise.cons ?_ ih
      intro b hb
      rcases List.mem_map.mp hb with ⟨a, _, rfl⟩
      simp [PhaseLE, hf]

/-- Membership in a constant-phase mapped block determines the phase. -/
theorem phase_of_mem_map {α : Type} {l : List α} {f : α → StopEvent} {k : Nat}
    {b : StopEvent} (hb : b ∈ l.map f) (hf : ∀ a, phase (f a) = k) : phase b = k := by
  rcases List.mem_map.mp hb with ⟨a, _, rfl⟩
  exact hf a

/-- Membership in the optional DB-close block forces the event. -/
theorem mem_db_block {c : Bool} {b : StopEvent}
    (hb : b ∈ (if c then [StopEvent.dbClose] else [])) : b = StopEvent.dbClose := by
  cases c <;> simp_all

/-- Claim C1: for every Service holding any non-empty combination of
dependent components, listeners, and a data store, `Stop()` performs the
teardown steps in the fixed order SubService closes, then gRPC
GracefulStops, then http Shutdowns under the 30-second deadline, then
the DB close if present, then closing the error channel, which is the
last action; each individual step appears in the trace for arbitrary
outcome oracles, so a failure in one step never prevents a later step. -/
theorem Stop_teardown_order (w : World) (s : Service)
    (h : s.subServices ≠ [] ∨ s.grpcServers ≠ [] ∨ s.httpServers ≠ [] ∨ s.hasDB = true) :
    List.Pairwise PhaseLE (Service.Stop w s).2
    ∧ (∀ n ∈ s.subServices, StopEvent.subClose n (w.subCloseOk n) ∈ (Service.Stop w s).2)
    ∧ (∀ g ∈ s.grpcServers, StopEvent.grpcStop g.address ∈ (Service.Stop w s).2)
    ∧ (∀ a ∈ s.httpServers,
        StopEvent.httpShutdown a shutdownTimeoutSeconds (w.httpShutdownOk a) ∈ (Service.Stop w s).2)
    ∧ (s.hasDB = true → StopEvent.dbClose ∈ (Service.Stop w s).2)
    ∧ (Service.Stop w s).2.getLast? = some StopEvent.errChanClose
    ∧ shutdownTimeoutSeconds = 30
    ∧ (Service.Stop w s).1.errChanClosed = true := by
  have hsubf : ∀ n, phase (StopEvent.subClose n (w.subCloseOk n)) = 0 := fun _ => rfl
  have hgrpcf : ∀ g : GRPCServer, phase (StopEvent.grpcStop g.address) = 1 := fun _ => rfl
  have hhttpf : ∀ a,
      phase (StopEvent.httpShutdown a shutdownTimeoutSeconds (w.httpShutdownOk a)) = 2 :=
    fun _ => rfl
  refine ⟨?_, ?_, ?_, ?_, ?_, ?_, rfl, rfl⟩
  · show List.Pairwise PhaseLE (Service.stopTrace w s)
    unfold Service.stopTrace
    refine List.pairwise_append.mpr ⟨?_, ?_, ?_⟩
    · refine List.pairwise_append.mpr ⟨?_, ?_, ?_⟩
      · refine List.pairwise_append.mpr ⟨?_, ?_, ?_⟩
        · refine List.pairwise_append.mpr ⟨?_, ?_, ?_⟩
          · exact pairwise_map_const _ _ 0 hsubf
          · exact pairwise_map_const _ _ 1 hgrpcf
          · intro a ha b hb
            have ha0 : phase a = 0 := phase_of_mem_map ha hsubf
            have hb1 : phase b = 1 := phase_of_mem_map hb hgrpcf
            simp [PhaseLE, ha0, hb1]
        · exact pairwise_map_const _ _ 2 hhttpf
        · intro a ha b hb
          have hb2 : phase b = 2 := phase_of_mem_map hb hhttpf
          rcases List.mem_append.mp ha with ha' | ha'
          · have : phase a = 0 := phase_of_mem_map ha' hsubf
            simp [PhaseLE, this, hb2]
          · have : phase a = 1 := phase_of_mem_map ha' hgrpcf
            simp [PhaseLE, this, hb2]
      · cases s.hasDB <;> simp
      · intro a ha b hb
        have hb3 : phase b = 3 := by rw [mem_db_block hb]; rfl
        rcases List.mem_append.mp ha with ha' | ha'
        · rcases List.mem_append.mp ha' with ha'' | ha''
          · have : phase a = 0 := phase_of_mem_map ha'' hsubf
            simp [PhaseLE, this, hb3]
          · have : phase a = 1 := phase_of_mem_map ha'' hgrpcf
            simp [PhaseLE, this, hb3]
        · have : phase a = 2 := phase_of_mem_map ha' hhttpf
          simp [PhaseLE, this, hb3]
    · simp
    · intro a ha b hb
      have hb4 : b = StopEvent.errChanClose := by simpa using hb
      subst hb4
      show phase a ≤ phase StopEvent.errChanClose
      exact phase_le_four a
  · intro n hn
    show StopEvent.subClose n (w.subCloseOk n) ∈ Service.stopTrace w s
    unfold Service.stopTrace
    exact List.mem_append_left _ (List.mem_append_left _ (List.mem_append_left _
      (List.mem_append_left _ (List.mem_map_of_mem _ hn))))
  · intro g hg
    show StopEvent.grpcStop g.address ∈ Service.stopTrace w s
    unfold Service.stopTrace
    exact List.mem_append_left _ (List.mem_append_left _ (List.mem_append_left _
      (List.mem_append_right _ (List.mem_map_of_mem _ hg))))
  · intro a ha
    show StopEvent.httpShutdown a shutdownTimeoutSeconds (w.httpShutdownOk a) ∈
      Service.stopTrace w s
    unfold Service.stopTrace
    exact List.mem_append_left _ (List.mem_append_left _
      (List.mem_append_right _ (List.mem_map_of_mem _ ha)))
  · intro hdb
    show StopEvent.dbClose ∈ Service.stopTrace w s
    unfold Service.stopTrace
    refine List.mem_append_left _ (List.mem_append_right _ ?_)
    simp [hdb]
  · show (Service.stopTrace w s).getLast? = some StopEvent.errChanClose
    unfold Service.stopTrace
    exact List.getLast?_concat _

/-- Witness for C1 at a Service with one SubService, one gRPC server,
one http server, and a DB handle, in a world where the SubService close
and the http shutdown both fail. -/
theorem Stop_teardown_order_witness :
    (sFullEx.subServices ≠ [] ∨ sFullEx.grpcServers ≠ [] ∨ sFullEx.httpServers ≠ []
      ∨ sFullEx.hasDB = true)
    ∧ (List.Pairwise PhaseLE (Service.Stop wFailEx sFullEx).2
       ∧ (∀ n ∈ sFullEx.subServices,
            StopEvent.subClose n (wFailEx.subCloseOk n) ∈ (Service.Stop wFailEx sFullEx).2)
       ∧ (∀ g ∈ sFullEx.grpcServers,
            StopEvent.grpcStop g.address ∈ (Service.Stop wFailEx sFullEx).2)
       ∧ (∀ a ∈ sFullEx.httpServers,
            StopEvent.httpShutdown a shutdownTimeoutSeconds (wFailEx.httpShutdownOk a) ∈
              (Service.Stop wFailEx sFullEx).2)
       ∧ (sFullEx.hasDB = true → StopEvent.dbClose ∈ (Service.Stop wFailEx sFullEx).2)
       ∧ (Service.Stop wFailEx sFullEx).2.getLast? = some StopEvent.errChanClose
       ∧ shutdownTimeoutSeconds = 30
       ∧ (Service.Stop wFailEx sFullEx).1.errChanClosed = true) :=
  ⟨Or.inl (by decide), Stop_teardown_order wFailEx sFullEx (Or.inl (by decide))⟩

/-- Claim C2 (refuted by the code): the http reachability probe used by
`IsAlive()` and the readiness sweep re-dials in an unbounded loop. At an
address where no dial ever succeeds the loop never returns for any
number of iterations, and whenever the loop does return its value is
true: there is no bounded retry budget and no path contributing false. -/
theorem checkHTTPServerUp_unbounded_spin :
    (∀ fuel, Service.checkHTTPServerUp wFailEx ":8080" fuel = none)
    ∧ (∀ dial attempt fuel, checkHTTPLoop dial attempt fuel = none
        ∨ checkHTTPLoop dial attempt fuel = some true) := by
  constructor
  · have hall : ∀ fuel attempt, checkHTTPLoop (fun _ => false) attempt fuel = none := by
      intro fuel
      induction fuel with
      | zero => intro _; rfl
      | succ n ih => intro a; simp [checkHTTPLoop, ih]
    intro fuel
    exact hall fuel 0
  · intro dial attempt fuel
    induction fuel generalizing attempt with
    | zero => exact Or.inl rfl
    | succ n ih =>
      cases hda : dial attempt
      · simpa [checkHTTPLoop, hda] using ih (attempt + 1)
      · exact Or.inr (by simp [checkHTTPLoop, hda])

/-- Looking up an address that no registered gRPC server carries makes
the registration walk fall through. -/
theorem registerOnFirst_eq_none (servers : List GRPCServer) (addr svc : String)
    (h : addr ∉ servers.map GRPCServer.address) :
    registerOnFirst servers addr svc = none := by
  induction servers with
  | nil => rfl
  | cons g rest ih =>
      simp only [List.map_cons, List.mem_cons, not_or] at h
      have hne : g.address ≠ addr := fun he => h.1 he.symm
      simp [registerOnFirst, hne, ih h.2]

/-- Claim C3 counterexample: at a Service with one gRPC server at
":9090", attaching a service implementation to the unknown address
":7777" does fail and leaves the Service unchanged, but the error it
fails with is "gRPC server not found", not the "listener not found"
error the claim states. -/
theorem AddGRPCService_error_message_counterexample :
    (Service.AddGRPCService sGrpcEx ":7777" "svc.V1").1 = sGrpcEx
    ∧ (Service.AddGRPCService sGrpcEx ":7777" "svc.V1").2 = some "gRPC server not found"
    ∧ (Service.AddGRPCService sGrpcEx ":7777" "svc.V1").2 ≠ some "listener not found" := by
  refine ⟨by decide, by decide, by decide⟩

/-- Claim C3 as amended: for every Service and every address that is not
the address of any registered gRPC server, `AddGRPCService` fails with
the error "gRPC server not found" and leaves the registry (listeners,
dependent components, data-store handle — the whole Service) unchanged. -/
theorem AddGRPCService_unknown_address (s : Service) (addr svc : String)
    (h : addr ∉ s.grpcServers.map GRPCServer.address) :
    Service.AddGRPCService s addr svc = (s, some "gRPC server not found") := by
  unfold Service.AddGRPCService
  rw [registerOnFirst_eq_none s.grpcServers addr svc h]

/-- Witness for the amended C3 at a concrete Service and address. -/
theorem AddGRPCService_unknown_address_witness :
    (":7777" ∉ sGrpcEx.grpcServers.map GRPCServer.address)
    ∧ Service.AddGRPCService sGrpcEx ":7777" "svc.V1" =
        (sGrpcEx, some "gRPC server not found") :=
  ⟨by decide, AddGRPCService_unknown_address sGrpcEx ":7777" "svc.V1" (by decide)⟩

/-- Claim C4: with zero listeners of either kind, zero dependent
components, and no data store, a readiness sweep stores true into the
snapshot and `IsAlive()` returns true: every dimension is an empty-set
AND-reduction. -/
theorem Ready_IsAlive_vacuous (w : World) (fuel : Nat) (s : Service)
    (h1 : s.grpcServers = []) (h2 : s.httpServers = []) (h3 : s.subServices = [])
    (h4 : s.hasDB = false) :
    Service.Ready w s fuel = some { s with isReady := true }
    ∧ Service.IsAlive w s fuel = some true := by
  constructor
  · simp [Service.Ready, checkHTTPAll, Service.checkGRPCServerUp, Service.checkDBAlive,
      h1, h2, h3, h4]
  · simp [Service.IsAlive, checkHTTPAll, Service.checkGRPCServerUp, Service.checkDBAlive,
      h1, h2, h4]

/-- Witness for C4 at the freshly constructed empty Service. -/
theorem Ready_IsAlive_vacuous_witness :
    ((newService "svc").grpcServers = [] ∧ (newService "svc").httpServers = []
      ∧ (newService "svc").subServices = [] ∧ (newService "svc").hasDB = false)
    ∧ (Service.Ready wEx (newService "svc") 0 = some { newService "svc" with isReady := true }
       ∧ Service.IsAlive wEx (newService "svc") 0 = some true) :=
  ⟨⟨rfl, rfl, rfl, rfl⟩, Ready_IsAlive_vacuous wEx 0 (newService "svc") rfl rfl rfl rfl⟩

/-- Claim C5: if some registered dependent component reports not-ready,
then any completed readiness sweep stores false into the snapshot,
whatever the other components, listeners, and the data store report. -/
theorem Ready_subservice_not_ready (w : World) (s : Service) (fuel : Nat) (n : String)
    (s' : Service) (hmem : n ∈ s.subServices) (hnr : w.subReady n = false)
    (h : Service.Ready w s fuel = some s') : s'.isReady = false := by
  have hall : s.subServices.all w.subReady = false := by
    cases hq : s.subServices.all w.subReady
    · rfl
    · exact absurd (List.all_eq_true.mp hq n hmem) (by simp [hnr])
  simp only [Service.Ready] at h
  cases hc : checkHTTPAll w s.httpServers fuel with
  | none => rw [hc] at h; exact absurd h (by simp)
  | some b =>
      rw [hc] at h
      simp only [Option.some.injEq] at h
      rw [← h]
      simp [hall]

/-- Witness for C5: one not-ready SubService flips a previously-true
snapshot to false on the next completed sweep. -/
theorem Ready_subservice_not_ready_witness :
    ("cache" ∈ sSubEx.subServices ∧ wFailEx.subReady "cache" = false
      ∧ Service.Ready wFailEx sSubEx 0 = some { sSubEx with isReady := false })
    ∧ ({ sSubEx with isReady := false } : Service).isReady = false :=
  ⟨⟨by decide, by decide, by decide⟩,
   Ready_subservice_not_ready wFailEx sSubEx 0 "cache" { sSubEx with isReady := false }
     (by decide) (by decide) (by decide)⟩

/-- Applying a concatenation of mutator lists is applying the first
list, then on success the second. -/
theorem applyOptions_append (l1 l2 : List MOption) (s : Service) :
    applyOptions (l1 ++ l2) s =
      match applyOptions l1 s with
      | Except.ok s' => applyOptions l2 s'
      | Except.error e => Except.error e := by
  induction l1 generalizing s with
  | nil => simp [applyOptions]
  | cons o os ih =>
      simp only [List.cons_append, applyOptions]
      cases applyOption o s with
      | error e => rfl
      | ok s' => exact ih s'

/-- Claim C6: the constructor applies the mutators in order and aborts
with the first error: whenever the mutators before `bad` succeed and
`bad` fails with `e`, construction returns exactly that error and no
Service, whatever mutators follow the failing one (they are never
applied). -/
theorem New_first_error_aborts (name : String) (pre post : List MOption) (bad : MOption)
    (s : Service) (e : String)
    (h1 : applyOptions pre (newService name) = Except.ok s)
    (h2 : applyOption bad s = Except.error e) :
    New name (pre ++ bad :: post) = Except.error e := by
  unfold New
  rw [applyOptions_append, h1]
  simp [applyOptions, h2]

/-- Witness for C6: a succeeding gRPC mutator, then a failing DB
mutator, then a further mutator that is never applied. -/
theorem New_first_error_aborts_witness :
    (applyOptions [MOption.grpcServer ":9090"] (newService "svc") = Except.ok sGrpcEx
      ∧ applyOption (MOption.db (some "parse failed")) sGrpcEx = Except.error "parse failed")
    ∧ New "svc"
        ([MOption.grpcServer ":9090"] ++ MOption.db (some "parse failed") :: [MOption.redis])
        = Except.error "parse failed" :=
  ⟨⟨rfl, rfl⟩,
   New_first_error_aborts "svc" [MOption.grpcServer ":9090"] [MOption.redis]
     (MOption.db (some "parse failed")) sGrpcEx "parse failed" rfl rfl⟩

/-- Claim C7: after the signal wait, a non-nil error other than the
termination sentinel is returned to the caller of `Start()` at once and
the error-drain sink is never started; the sentinel, or a nil error,
makes `Start()` start the drain sink and return nil. -/
theorem Start_wait_error_propagation (e : GoErr) (h : e ≠ GoErr.termSig) :
    startAfterWait (some e) = { returned := some e, drainStarted := false }
    ∧ startAfterWait (some GoErr.termSig) = { returned := none, drainStarted := true }
    ∧ startAfterWait none = { returned := none, drainStarted := true } := by
  refine ⟨?_, rfl, rfl⟩
  cases e with
  | termSig => exact absurd rfl h
  | other m => rfl

/-- Witness for C7 at a concrete unexpected wait failure. -/
theorem Start_wait_error_propagation_witness :
    (GoErr.other "watch failed" ≠ GoErr.termSig)
    ∧ (startAfterWait (some (GoErr.other "watch failed")) =
         { returned := some (GoErr.other "watch failed"), drainStarted := false }
       ∧ startAfterWait (some GoErr.termSig) = { returned := none, drainStarted := true }
       ∧ startAfterWait none = { returned := none, drainStarted := true }) :=
  ⟨by decide, Start_wait_error_propagation (GoErr.other "watch failed") (by decide)⟩

/-- Claim C8: the liveness route answers success exactly when every
registered checker returns true, and otherwise answers the
service-unavailable status with a JSON body carrying the numeric code
and the fixed detail string "error during request processing", leaking
no internal error detail. -/
theorem alive_endpoint (checks : List Bool) :
    alive checks =
      (if checks.all (fun c => c) then
        { status := statusOK, contentType := none, body := none }
      else AnswerWithJSONError statusServiceUnavailable)
    ∧ (AnswerWithJSONError statusServiceUnavailable).status = statusServiceUnavailable
    ∧ (AnswerWithJSONError statusServiceUnavailable).contentType = some "application/json"
    ∧ (AnswerWithJSONError statusServiceUnavailable).body =
        some { errorCode := statusServiceUnavailable
               errorDetails := "error during request processing" }
    ∧ statusServiceUnavailable = 503 ∧ statusOK = 200 := by
  refine ⟨?_, rfl, rfl, rfl, rfl, rfl⟩
  induction checks with
  | nil => rfl
  | cons c rest ih =>
      cases c
      · simp [alive, List.all_cons]
      · simpa [alive, List.all_cons] using ih

/-- The registered gRPC addresses after a mutator run are the starting
addresses extended by the addresses of the gRPC mutators, in order:
the gRPC mutator always appends a fresh entry. -/
theorem applyOptions_grpcAddrs (opts : List MOption) (s s' : Service)
    (h : applyOptions opts s = Except.ok s') :
    s'.grpcServers.map GRPCServer.address
      = s.grpcServers.map GRPCServer.address ++ grpcOptionAddrs opts := by
  induction opts generalizing s with
  | nil =>
      simp only [applyOptions, Except.ok.injEq] at h
      subst h
      simp [grpcOptionAddrs]
  | cons o os ih =>
      simp only [applyOptions] at h
      cases ho : applyOption o s with
      | error e => rw [ho] at h; exact (Except.noConfusion h)
      | ok s1 =>
          rw [ho] at h
          have hrec := ih s1 h
          cases o with
          | grpcServer a =>
              simp only [applyOption, Except.ok.injEq] at ho
              subst ho
              rw [hrec]
              simp [grpcOptionAddrs, List.map_append, List.append_assoc]
          | techHTTPServer a =>
              simp only [applyOption, Except.ok.injEq] at ho
              subst ho
              rw [hrec]
              simp [grpcOptionAddrs]
          | db fail =>
              cases fail with
              | none =>
                  simp only [applyOption, Except.ok.injEq] at ho
                  subst ho
                  rw [hrec]
                  simp [grpcOptionAddrs]
              | some e => exact (Except.noConfusion ho)
          | redis =>
              simp only [applyOption, Except.ok.injEq] at ho
              subst ho
              rw [hrec]
              simp [grpcOptionAddrs]

/-- Claim C9 counterexample: applying the gRPC-server mutator twice for
the address ":9090" constructs a Service whose registered gRPC bind
addresses are not pairwise distinct — the second application appends a
duplicate entry instead of extending the existing listener. -/
theorem New_duplicate_grpc_address_counterexample :
    ¬ (registeredGRPCAddrs
        (New "svc" [MOption.grpcServer ":9090", MOption.grpcServer ":9090"])).Nodup := by
  decide

/-- Claim C9 as amended: the constructor appends one gRPC server per
gRPC-server mutator, in order, so the registered bind addresses are
exactly the mutator addresses — pairwise distinct only when the mutator
addresses are, and duplicated when a mutator is re-applied for an
already-registered address (`AddGRPCService` then extends the first
match). -/
theorem New_grpc_addresses (name : String) (opts : List MOption) (s : Service)
    (h : New name opts = Except.ok s) :
    s.grpcServers.map GRPCServer.address = grpcOptionAddrs opts := by
  have hrun := applyOptions_grpcAddrs opts (newService name) s h
  simpa [newService] using hrun

/-- Witness for the amended C9 at the duplicated-address option list. -/
theorem New_grpc_addresses_witness :
    New "svc" [MOption.grpcServer ":9090", MOption.grpcServer ":9090"] = Except.ok sDupEx
    ∧ sDupEx.grpcServers.map GRPCServer.address
        = grpcOptionAddrs [MOption.grpcServer ":9090", MOption.grpcServer ":9090"] :=
  ⟨rfl,
   New_grpc_addresses "svc" [MOption.grpcServer ":9090", MOption.grpcServer ":9090"]
     sDupEx rfl⟩

/-- A single successful mutator never writes the readiness snapshot. -/
theorem applyOption_isReady (o : MOption) (s s' : Service)
    (h : applyOption o s = Except.ok s') : s'.isReady = s.isReady := by
  cases o with
  | grpcServer a =>
      simp only [applyOption, Except.ok.injEq] at h
      subst h; rfl
  | techHTTPServer a =>
      simp only [applyOption, Except.ok.injEq] at h
      subst h; rfl
  | db fail =>
      cases fail with
      | none =>
          simp only [applyOption, Except.ok.injEq] at h
          subst h; rfl
      | some e => exact (Except.noConfusion h)
  | redis =>
      simp only [applyOption, Except.ok.injEq] at h
      subst h; rfl

/-- A successful mutator run never writes the readiness snapshot. -/
theorem applyOptions_isReady (opts : List MOption) (s s' : Service)
    (h : applyOptions opts s = Except.ok s') : s'.isReady = s.isReady := by
  induction opts generalizing s with
  | nil =>
      simp only [applyOptions, Except.ok.injEq] at h
      subst h; rfl
  | cons o os ih =>
      simp only [applyOptions] at h
      cases ho : applyOption o s with
      | error e => rw [ho] at h; exact (Except.noConfusion h)
      | ok s1 => rw [ho] at h; rw [ih s1 h, applyOption_isReady o s s1 ho]

/-- Claim C10: the constructor stores false into the readiness snapshot
before applying any mutator, and no mutator writes the snapshot, so
every Service the constructor returns still carries a false snapshot —
hence every read of the snapshot before the first completed sweep (only
`Ready` ever swaps it) yields false. -/
theorem New_isReady_false (name : String) (opts : List MOption) (s : Service)
    (h : New name opts = Except.ok s) :
    (newService name).isReady = false ∧ s.isReady = false := by
  refine ⟨rfl, ?_⟩
  rw [applyOptions_isReady opts (newService name) s h]
  rfl

/-- Witness for C10 at a construction with one gRPC mutator. -/
theorem New_isReady_false_witness :
    New "svc" [MOption.grpcServer ":9090"] = Except.ok sGrpcEx
    ∧ ((newService "svc").isReady = false ∧ sGrpcEx.isReady = false) :=
  ⟨rfl, New_isReady_false "svc" [MOption.grpcServer ":9090"] sGrpcEx rfl⟩

end App
